import Mathlib

/-!
# Verification of the trading-strategy monitor core

Shallow embedding of the repository's core logic, with prices and money
modelled as exact rationals (`ℚ`):

* `indicators.py` — `calculate_moving_average`, `detect_ma_crossover`;
* `compressor.py` — `compress_market_data`, `decompress_market_data`;
* `config.py` — `validate_config` and the module constants;
* `backtest.py` — the `BacktestEngine` trading loop (`simStep`), the
  end-of-series liquidation (`closeOpenPosition`), `_calculate_metrics`
  (modelled as the association list `calculate_metrics`, mirroring the
  Python dict including which keys each branch contains) and
  `_calculate_max_drawdown`.

A pandas `NaN` entry of a moving-average series is modelled as `none`
(the series has type `List (Option ℚ)`); a Python function that can
return `None` instead of data returns an `Option`.
-/

namespace Trading

/-- The trading signal values `"BUY"` and `"SELL"` produced by
`detect_ma_crossover` (a `None` result is `Option.none`). -/
inductive Signal : Type
  | BUY : Signal
  | SELL : Signal
deriving DecidableEq, Repr

/-! ## indicators.py -/

/-- Semantics of `price_series.rolling(window=window).mean()` used at
`indicators.py:48`: a series of the same length where index `i` is `NaN`
(`none`) while fewer than `window` prices are available (`i + 1 < window`)
and otherwise the mean of the `window` prices ending at index `i`. -/
def rolling_mean (price_data : List ℚ) (window : ℕ) : List (Option ℚ) :=
  (List.range price_data.length).map (fun i =>
    if i + 1 < window then none
    else some (((price_data.drop (i + 1 - window)).take window).sum / (window : ℚ)))

/-- `indicators.py:16-50`, `calculate_moving_average`: returns `None`
(here `none`) when fewer than `window` data points are supplied, else the
rolling mean series. -/
def calculate_moving_average (price_data : List ℚ) (window : ℕ) :
    Option (List (Option ℚ)) :=
  if price_data.length < window then none
  else some (rolling_mean price_data window)

/-- `indicators.py:53-118`, `detect_ma_crossover`: guards (length below
`long_window`, failed MA calculations, series shorter than 2, `NaN` at
either of the last two points) return `none`; otherwise the last two
points of each series are compared. -/
def detect_ma_crossover (price_data : List ℚ) (short_window long_window : ℕ) :
    Option Signal :=
  if price_data.length < long_window then none
  else
    match calculate_moving_average price_data short_window,
          calculate_moving_average price_data long_window with
    | some short_ma, some long_ma =>
      if short_ma.length < 2 ∨ long_ma.length < 2 then none
      else
        match short_ma[short_ma.length - 1]?, long_ma[long_ma.length - 1]?,
              short_ma[short_ma.length - 2]?, long_ma[long_ma.length - 2]? with
        | some (some short_current), some (some long_current),
          some (some short_previous), some (some long_previous) =>
          if short_previous ≤ long_previous ∧ short_current > long_current then
            some Signal.BUY
          else if short_previous ≥ long_previous ∧ short_current < long_current then
            some Signal.SELL
          else none
        | _, _, _, _ => none
    | _, _ => none

/-! ## compressor.py -/

/-- The dictionary returned by `compress_market_data`
(`compressor.py:60-64`). -/
structure CompressedData : Type where
  base_price : ℚ
  deltas : List ℚ
  original_length : ℕ
deriving DecidableEq, Repr

/-- The delta loop of `compressor.py:53-57`: differences of consecutive
prices. -/
def consecutive_deltas : List ℚ → List ℚ
  | [] => []
  | [_] => []
  | a :: b :: rest => (b - a) :: consecutive_deltas (b :: rest)

/-- `compressor.py:25-67`, `compress_market_data`: `None` on empty input,
else base price, deltas and original length. -/
def compress_market_data (price_data : List ℚ) : Option CompressedData :=
  match price_data with
  | [] => none
  | p :: ps => some ⟨p, consecutive_deltas (p :: ps), (p :: ps).length⟩

/-- The reconstruction loop of `compressor.py:97-104`: starting from the
base price, each delta is added to produce the next price. -/
def reconstruct_prices (current_price : ℚ) : List ℚ → List ℚ
  | [] => [current_price]
  | d :: ds => current_price :: reconstruct_prices (current_price + d) ds

/-- `compressor.py:70-107`, `decompress_market_data`: `None` input gives
`None`; otherwise the price list is rebuilt from base price and deltas
(the key-presence checks of lines 88-90 always succeed on a
`CompressedData` value). -/
def decompress_market_data (compressed_data : Option CompressedData) :
    Option (List ℚ) :=
  match compressed_data with
  | none => none
  | some cd => some (reconstruct_prices cd.base_price cd.deltas)

/-! ## config.py -/

/-- `config.py:18`. -/
def FETCH_INTERVAL_MINUTES : ℤ := 5

/-- `config.py:22`. -/
def LOOKBACK_PERIOD_DAYS : ℤ := 30

/-- `config.py:31`. -/
def SHORT_MA_WINDOW : ℤ := 5

/-- `config.py:35`. -/
def LONG_MA_WINDOW : ℤ := 20

/-- `config.py:69-93`, `validate_config`, over the four numeric settings
it reads: it returns `False` (printing a descriptive message) for a
non-positive fetch interval, lookback period or MA window and for
`SHORT_MA_WINDOW >= LONG_MA_WINDOW`, else `True`. It reads no capital
setting — `config.py` has none. -/
def validate_config (fetch_interval_minutes lookback_period_days
    short_ma_window long_ma_window : ℤ) : Bool :=
  if fetch_interval_minutes ≤ 0 then false
  else if lookback_period_days ≤ 0 then false
  else if short_ma_window ≤ 0 ∨ long_ma_window ≤ 0 then false
  else if short_ma_window ≥ long_ma_window then false
  else true

/-! ## backtest.py: engine state -/

/-- The trade dictionary appended by `BacktestEngine.run_backtest`
(`backtest.py:103-112` and `137-146`); dates are time-step indices. -/
structure Trade : Type where
  entry_date : ℕ
  exit_date : ℕ
  entry_price : ℚ
  exit_price : ℚ
  shares : ℚ
  profit : ℚ
  profit_pct : ℚ
  position : String
deriving DecidableEq, Repr

/-- `BacktestEngine.__init__` state (`backtest.py:19-32`): the
constructor stores its arguments and empty logs, with no validation of
any kind. -/
structure BacktestEngine : Type where
  symbol : String
  period_months : ℤ
  initial_capital : ℚ
  trades : List Trade
  portfolio_value : List ℚ
deriving DecidableEq, Repr

/-- `backtest.py:19-32`, `BacktestEngine.__init__`: a total constructor;
no configuration value is checked or rejected. -/
def backtest_engine_init (symbol : String) (period_months : ℤ)
    (initial_capital : ℚ) : BacktestEngine :=
  ⟨symbol, period_months, initial_capital, [], []⟩

/-- One step of the drawdown loop of
`BacktestEngine._calculate_max_drawdown` (`backtest.py:217-222`), on the
state (running peak, max drawdown so far). -/
def drawdown_step : ℚ × ℚ → ℚ → ℚ × ℚ
  | (peak, max_dd), value =>
    let peak' := if value > peak then value else peak
    let drawdown := (peak' - value) / peak' * 100
    (peak', if drawdown > max_dd then drawdown else max_dd)

/-- `backtest.py:209-224`, `BacktestEngine._calculate_max_drawdown`:
`0.0` on an empty history, else the loop over all values starting with
`peak` at the first value and `max_dd = 0`. -/
def calculate_max_drawdown : List ℚ → ℚ
  | [] => 0
  | v :: vs => ((v :: vs).foldl drawdown_step (v, 0)).2

/-! ## Supporting lemmas -/

theorem rolling_mean_length (price_data : List ℚ) (window : ℕ) :
    (rolling_mean price_data window).length = price_data.length := by
  simp [rolling_mean]

theorem rolling_mean_getElem? (price_data : List ℚ) (window i : ℕ)
    (h : i < price_data.length) :
    (rolling_mean price_data window)[i]? =
      some (if i + 1 < window then none
            else some (((price_data.drop (i + 1 - window)).take window).sum / (window : ℚ))) := by
  simp [rolling_mean, List.getElem?_map, List.getElem?_range, h]

theorem reconstruct_consecutive_deltas (a : ℚ) (ps : List ℚ) :
    reconstruct_prices a (consecutive_deltas (a :: ps)) = a :: ps := by
  induction ps generalizing a with
  | nil => rfl
  | cons b rest ih =>
    simp only [consecutive_deltas, reconstruct_prices, add_sub_cancel]
    rw [ih b]

theorem drawdown_step_snd_le (st : ℚ × ℚ) (v : ℚ) :
    st.2 ≤ (drawdown_step st v).2 := by
  rcases st with ⟨peak, max_dd⟩
  simp only [drawdown_step]
  split <;> split
  · exact le_of_lt (by assumption)
  · exact le_refl _
  · exact le_of_lt (by assumption)
  · exact le_refl _

theorem foldl_drawdown_step_snd_le (vs : List ℚ) (st : ℚ × ℚ) :
    st.2 ≤ (vs.foldl drawdown_step st).2 := by
  induction vs generalizing st with
  | nil => exact le_refl _
  | cons v vs ih =>
    exact le_trans (drawdown_step_snd_le st v) (ih (drawdown_step st v))

theorem foldl_drawdown_step_of_chain (vs : List ℚ) (peak d : ℚ)
    (hd : 0 ≤ d) (hch : List.Chain (· ≤ ·) peak vs) :
    (vs.foldl drawdown_step (peak, d)).2 = d := by
  induction vs generalizing peak with
  | nil => rfl
  | cons v vs ih =>
    rcases hch with _ | ⟨hle, hch⟩
    have hpeak : drawdown_step (peak, d) v = (v, d) := by
      simp only [drawdown_step]
      rcases lt_or_le peak v with hlt | hge
      · simp [hlt, sub_self, not_lt.mpr hd]
      · have hev : v = peak := le_antisymm hge hle
        subst hev
        simp [sub_self, not_lt.mpr hd]
    rw [List.foldl_cons, hpeak]
    exact ih v hch

theorem range_filter_succ_length (n w : ℕ) :
    ((List.range n).filter (fun i => decide (w ≤ i + 1))).length = n - (w - 1) := by
  induction n with
  | zero => simp
  | succ n ih =>
    rw [List.range_succ, List.filter_append, List.length_append, ih]
    by_cases h : w ≤ n + 1 <;> simp [h] <;> omega

theorem length_filter_isSome_map (g : ℕ → Option ℚ) (l : List ℕ) :
    ((l.map g).filter (fun o => o.isSome)).length
      = (l.filter (fun i => (g i).isSome)).length := by
  induction l with
  | nil => rfl
  | cons a l ih =>
    by_cases h : (g a).isSome <;>
      simp [List.filter_cons, h, ih]

theorem rolling_mean_defined_count (p : List ℚ) (w : ℕ) :
    ((rolling_mean p w).filter (fun o => o.isSome)).length = p.length - (w - 1) := by
  unfold rolling_mean
  rw [length_filter_isSome_map]
  have hcong : ∀ i ∈ List.range p.length,
      ((if i + 1 < w then (none : Option ℚ)
        else some (((p.drop (i + 1 - w)).take w).sum / (w : ℚ))).isSome)
        = decide (w ≤ i + 1) := by
    intro i _
    by_cases h : i + 1 < w
    · have hn : ¬ (w ≤ i + 1) := by omega
      simp [h, hn]
    · have hy : w ≤ i + 1 := by omega
      simp [h, hy]
  rw [List.filter_congr hcong]
  exact range_filter_succ_length p.length w

/-! ## Claim theorems: indicators and compressor -/

/-- C3: for a positive window `w` and a series of length at least `w`,
`calculate_moving_average` succeeds with a series of the same length in
which index `i` is undefined exactly while `i + 1 < w`, and for
`w ≤ i + 1` holds the arithmetic mean of the `w`-price slice
`prices[i-w+1 .. i]` (a slice of length exactly `w`); the number of
defined entries is `L - w + 1`. -/
theorem moving_average_spec (prices : List ℚ) (w : ℕ)
    (hw : 1 ≤ w) (hl : w ≤ prices.length) :
    calculate_moving_average prices w = some (rolling_mean prices w) ∧
    (rolling_mean prices w).length = prices.length ∧
    (∀ i, i + 1 < w → (rolling_mean prices w)[i]? = some none) ∧
    (∀ i, w ≤ i + 1 → i < prices.length →
       ((prices.drop (i + 1 - w)).take w).length = w ∧
       (rolling_mean prices w)[i]? =
         some (some (((prices.drop (i + 1 - w)).take w).sum / (w : ℚ)))) ∧
    ((rolling_mean prices w).filter (fun o => o.isSome)).length =
      prices.length - w + 1 := by
  refine ⟨?_, rolling_mean_length prices w, ?_, ?_, ?_⟩
  · simp [calculate_moving_average, Nat.not_lt.mpr hl]
  · intro i hi
    have hilen : i < prices.length := by omega
    rw [rolling_mean_getElem? prices w i hilen, if_pos hi]
  · intro i hwi hilen
    constructor
    · rw [List.length_take, List.length_drop]
      omega
    · rw [rolling_mean_getElem? prices w i hilen, if_neg (by omega)]
  · rw [rolling_mean_defined_count]
    omega

/-- C3 witness (spec Scenario A): the 3-period MA of
`[100, 102, 104, 106, 108, 110, 112]` succeeds, has 5 defined values, and
its first defined value (index 2) is `102`. -/
theorem moving_average_spec_witness :
    calculate_moving_average [(100 : ℚ), 102, 104, 106, 108, 110, 112] 3 =
      some (rolling_mean [(100 : ℚ), 102, 104, 106, 108, 110, 112] 3) ∧
    ((rolling_mean [(100 : ℚ), 102, 104, 106, 108, 110, 112] 3).filter
        (fun o => o.isSome)).length =
      [(100 : ℚ), 102, 104, 106, 108, 110, 112].length - 3 + 1 ∧
    (rolling_mean [(100 : ℚ), 102, 104, 106, 108, 110, 112] 3)[2]? =
      some (some 102) := by
  refine ⟨(moving_average_spec _ 3 (by norm_num) (by norm_num)).1,
          (moving_average_spec _ 3 (by norm_num) (by norm_num)).2.2.2.2, ?_⟩
  rw [((moving_average_spec [(100 : ℚ), 102, 104, 106, 108, 110, 112] 3
        (by norm_num) (by norm_num)).2.2.2.1 2 (by norm_num) (by norm_num)).2]
  rw [show List.take 3 (List.drop (2 + 1 - 3) [(100 : ℚ), 102, 104, 106, 108, 110, 112])
        = [(100 : ℚ), 102, 104] from by decide]
  norm_num

/-- C9: a moving-average request over fewer than `window` points returns
the undefined result `none`, and crossover detection over fewer than
`long_window` points returns no signal (`none`) — in both cases via the
initial guard, with no exception and no zero result. -/
theorem ma_and_crossover_insufficient_data (prices : List ℚ) (w sw lw : ℕ) :
    (prices.length < w → calculate_moving_average prices w = none) ∧
    (prices.length < lw → detect_ma_crossover prices sw lw = none) := by
  constructor
  · intro h
    simp [calculate_moving_average, h]
  · intro h
    simp [detect_ma_crossover, h]

/-- C9 witness: a 1-point series is insufficient for a 5-period MA and a
(2,5) crossover. -/
theorem ma_and_crossover_insufficient_data_witness :
    calculate_moving_average [(100 : ℚ)] 5 = none ∧
    detect_ma_crossover [(100 : ℚ)] 2 5 = none := by
  refine ⟨(ma_and_crossover_insufficient_data [(100 : ℚ)] 5 2 5).1 (by decide),
          (ma_and_crossover_insufficient_data [(100 : ℚ)] 5 2 5).2 (by decide)⟩

/-- C10: delta compression round-trips — decompressing the compression of
any non-empty price list returns exactly the original list (prices are
exact rationals here, so base price plus cumulative deltas is exact). -/
theorem compress_decompress_roundtrip (prices : List ℚ) (h : prices ≠ []) :
    decompress_market_data (compress_market_data prices) = some prices := by
  match prices with
  | [] => exact absurd rfl h
  | p :: ps =>
    simp only [compress_market_data, decompress_market_data]
    rw [reconstruct_consecutive_deltas]

/-- C10 witness: round-trip on the concrete series `[100, 102, 101]`. -/
theorem compress_decompress_roundtrip_witness :
    decompress_market_data (compress_market_data [(100 : ℚ), 102, 101]) =
      some [(100 : ℚ), 102, 101] :=
  compress_decompress_roundtrip [(100 : ℚ), 102, 101] (by decide)

theorem detect_ma_crossover_eq (prices : List ℚ) (sw lw : ℕ)
    (h2 : 2 ≤ prices.length) (hsw : sw ≤ prices.length) (hlw : lw ≤ prices.length) :
    detect_ma_crossover prices sw lw =
      match (rolling_mean prices sw)[prices.length - 1]?,
            (rolling_mean prices lw)[prices.length - 1]?,
            (rolling_mean prices sw)[prices.length - 2]?,
            (rolling_mean prices lw)[prices.length - 2]? with
      | some (some short_current), some (some long_current),
        some (some short_previous), some (some long_previous) =>
        if short_previous ≤ long_previous ∧ short_current > long_current then
          some Signal.BUY
        else if short_previous ≥ long_previous ∧ short_current < long_current then
          some Signal.SELL
        else none
      | _, _, _, _ => none := by
  unfold detect_ma_crossover calculate_moving_average
  rw [if_neg (Nat.not_lt.mpr hlw)]
  simp only [if_neg (Nat.not_lt.mpr hsw), if_neg (Nat.not_lt.mpr hlw)]
  simp only [rolling_mean_length]
  rw [if_neg (by omega : ¬(prices.length < 2 ∨ prices.length < 2))]

/-- C2: when the detector reaches the comparison — the four values at the
last two index positions of the short and long MA series are defined and
equal `s_prev`, `l_prev`, `s_cur`, `l_cur` — it returns BUY iff
`s_prev <= l_prev` and `s_cur > l_cur`, SELL iff `s_prev >= l_prev` and
`s_cur < l_cur`, and no signal otherwise; if any of the four positions
holds an undefined (`NaN`) value the result is no signal; and no input
yields two distinct signals. -/
theorem crossover_classification (prices : List ℚ) (short_window long_window : ℕ) :
    (∀ s_prev l_prev s_cur l_cur : ℚ,
       1 ≤ short_window → 1 ≤ long_window →
       short_window + 1 ≤ prices.length → long_window + 1 ≤ prices.length →
       (rolling_mean prices short_window)[prices.length - 2]? = some (some s_prev) →
       (rolling_mean prices long_window)[prices.length - 2]? = some (some l_prev) →
       (rolling_mean prices short_window)[prices.length - 1]? = some (some s_cur) →
       (rolling_mean prices long_window)[prices.length - 1]? = some (some l_cur) →
       (detect_ma_crossover prices short_window long_window = some Signal.BUY ↔
          (s_prev ≤ l_prev ∧ l_cur < s_cur)) ∧
       (detect_ma_crossover prices short_window long_window = some Signal.SELL ↔
          (l_prev ≤ s_prev ∧ s_cur < l_cur)) ∧
       (detect_ma_crossover prices short_window long_window = none ↔
          (¬(s_prev ≤ l_prev ∧ l_cur < s_cur) ∧ ¬(l_prev ≤ s_prev ∧ s_cur < l_cur)))) ∧
    (((rolling_mean prices short_window)[prices.length - 2]? = some none ∨
      (rolling_mean prices long_window)[prices.length - 2]? = some none ∨
      (rolling_mean prices short_window)[prices.length - 1]? = some none ∨
      (rolling_mean prices long_window)[prices.length - 1]? = some none) →
      detect_ma_crossover prices short_window long_window = none) ∧
    (∀ s1 s2 : Signal,
       detect_ma_crossover prices short_window long_window = some s1 →
       detect_ma_crossover prices short_window long_window = some s2 → s1 = s2) := by
  refine ⟨?_, ?_, ?_⟩
  · intro s_prev l_prev s_cur l_cur hsw1 hlw1 hswL hlwL hsp hlp hsc hlc
    rw [detect_ma_crossover_eq prices short_window long_window (by omega) (by omega) (by omega)]
    rw [hsc, hlc, hsp, hlp]
    by_cases hb : s_prev ≤ l_prev ∧ l_cur < s_cur
    · by_cases hs : l_prev ≤ s_prev ∧ s_cur < l_cur
      · exact absurd hs.2 (not_lt.mpr (le_of_lt hb.2))
      · simp [hb, hs, gt_iff_lt, ge_iff_le]
    · by_cases hs : l_prev ≤ s_prev ∧ s_cur < l_cur
      · simp [hb, hs, gt_iff_lt, ge_iff_le]
      · simp [hb, hs, gt_iff_lt, ge_iff_le]
  · intro hnan
    rcases Nat.lt_or_ge prices.length long_window with hllw | hllw
    · simp [detect_ma_crossover, hllw]
    rcases Nat.lt_or_ge prices.length short_window with hlsw | hlsw
    · simp [detect_ma_crossover, calculate_moving_average, hlsw, Nat.not_lt.mpr hllw]
    rcases Nat.lt_or_ge prices.length 2 with hl2 | hl2
    · simp [detect_ma_crossover, calculate_moving_average,
            Nat.not_lt.mpr hllw, Nat.not_lt.mpr hlsw, rolling_mean_length, hl2]
    · rw [detect_ma_crossover_eq prices short_window long_window hl2 hlsw hllw]
      split
      · rename_i short_current long_current short_previous long_previous
                 heq1 heq2 heq3 heq4
        rcases hnan with h | h | h | h <;> simp_all
      · rfl
  · intro s1 s2 h1 h2
    rw [h1] at h2
    exact Option.some.inj h2

/-- C2 witness: on `[10, 10, 10, 16]` with windows 2 and 3 the four
values are `s_prev = 10`, `l_prev = 10`, `s_cur = 13`, `l_cur = 12`, and
the detector fires BUY. -/
theorem crossover_classification_witness :
    detect_ma_crossover [(10 : ℚ), 10, 10, 16] 2 3 = some Signal.BUY :=
  ((crossover_classification [(10 : ℚ), 10, 10, 16] 2 3).1 10 10 13 12
    (by norm_num) (by norm_num) (by norm_num) (by norm_num)
    (by
      show (rolling_mean [(10 : ℚ), 10, 10, 16] 2)[2]? = some (some 10)
      rw [rolling_mean_getElem? _ 2 2 (by norm_num), if_neg (by norm_num)]
      rw [show List.take 2 (List.drop (2 + 1 - 2) [(10 : ℚ), 10, 10, 16])
            = [(10 : ℚ), 10] from by decide]
      norm_num)
    (by
      show (rolling_mean [(10 : ℚ), 10, 10, 16] 3)[2]? = some (some 10)
      rw [rolling_mean_getElem? _ 3 2 (by norm_num), if_neg (by norm_num)]
      rw [show List.take 3 (List.drop (2 + 1 - 3) [(10 : ℚ), 10, 10, 16])
            = [(10 : ℚ), 10, 10] from by decide]
      norm_num)
    (by
      show (rolling_mean [(10 : ℚ), 10, 10, 16] 2)[3]? = some (some 13)
      rw [rolling_mean_getElem? _ 2 3 (by norm_num), if_neg (by norm_num)]
      rw [show List.take 2 (List.drop (3 + 1 - 2) [(10 : ℚ), 10, 10, 16])
            = [(10 : ℚ), 16] from by decide]
      norm_num)
    (by
      show (rolling_mean [(10 : ℚ), 10, 10, 16] 3)[3]? = some (some 12)
      rw [rolling_mean_getElem? _ 3 3 (by norm_num), if_neg (by norm_num)]
      rw [show List.take 3 (List.drop (3 + 1 - 3) [(10 : ℚ), 10, 10, 16])
            = [(10 : ℚ), 10, 16] from by decide]
      norm_num)).1.mpr (by norm_num)

/-! ## Claim theorems: configuration and drawdown -/

/-- C7: the maximum drawdown computed by the engine is always
non-negative, is `0` whenever the portfolio-value curve is non-decreasing
(consecutive values related by `≤`), and is `0` on the empty curve. -/
theorem max_drawdown_nonneg_and_zero_on_nondecreasing (l : List ℚ) :
    0 ≤ calculate_max_drawdown l ∧
    (l.Chain' (· ≤ ·) → calculate_max_drawdown l = 0) ∧
    calculate_max_drawdown ([] : List ℚ) = 0 := by
  refine ⟨?_, ?_, rfl⟩
  · match l with
    | [] => exact le_refl 0
    | v :: vs =>
      simpa [calculate_max_drawdown] using
        foldl_drawdown_step_snd_le (v :: vs) (v, 0)
  · intro hch
    match l with
    | [] => rfl
    | v :: vs =>
      have hchain : List.Chain (· ≤ ·) v vs := hch
      simp only [calculate_max_drawdown, List.foldl_cons]
      have hfirst : drawdown_step (v, 0) v = (v, 0) := by
        simp [drawdown_step, sub_self]
      rw [hfirst]
      exact foldl_drawdown_step_of_chain vs v 0 (le_refl 0) hchain

/-- C7 witness: on the non-decreasing curve `[100, 105, 110]` the
drawdown is non-negative and equals `0`. -/
theorem max_drawdown_witness :
    0 ≤ calculate_max_drawdown [(100 : ℚ), 105, 110] ∧
    calculate_max_drawdown [(100 : ℚ), 105, 110] = 0 :=
  ⟨(max_drawdown_nonneg_and_zero_on_nondecreasing [(100 : ℚ), 105, 110]).1,
   (max_drawdown_nonneg_and_zero_on_nondecreasing [(100 : ℚ), 105, 110]).2.1
     (by norm_num [List.chain'_cons, List.chain'_singleton])⟩

/-- C6 (amended): `validate_config` returns `True` exactly when the fetch
interval, lookback period and both MA windows are positive and the short
window is strictly below the long window — initial capital is not among
its inputs; and `BacktestEngine.__init__` stores any `initial_capital`
unchecked, so engine construction rejects nothing. -/
theorem validate_config_spec :
    (∀ fim lpd smw lmw : ℤ,
       validate_config fim lpd smw lmw = true ↔
         (0 < fim ∧ 0 < lpd ∧ 0 < smw ∧ 0 < lmw ∧ smw < lmw)) ∧
    (∀ (sym : String) (pm : ℤ) (cap : ℚ),
       (backtest_engine_init sym pm cap).initial_capital = cap) := by
  constructor
  · intro fim lpd smw lmw
    unfold validate_config
    split_ifs <;> simp_all
    omega
  · intro sym pm cap
    rfl

/-- C6 witness: the repository's own configuration (5, 30, 5, 20)
validates. -/
theorem validate_config_spec_witness :
    validate_config FETCH_INTERVAL_MINUTES LOOKBACK_PERIOD_DAYS
      SHORT_MA_WINDOW LONG_MA_WINDOW = true :=
  (validate_config_spec.1 FETCH_INTERVAL_MINUTES LOOKBACK_PERIOD_DAYS
    SHORT_MA_WINDOW LONG_MA_WINDOW).mpr (by norm_num [FETCH_INTERVAL_MINUTES,
      LOOKBACK_PERIOD_DAYS, SHORT_MA_WINDOW, LONG_MA_WINDOW])

/-- C6 counterexample: a backtest engine is constructed for a run holding
`initial_capital = -500` — no rejection occurs on that path (the
constructor is total), and the only validation routine in the codebase,
`validate_config`, does not read any capital value and passes on the
module configuration regardless. -/
theorem backtest_engine_accepts_nonpositive_capital :
    (backtest_engine_init "AAPL" 6 (-500)).initial_capital = -500 ∧
    ((-500 : ℚ) ≤ 0) ∧
    validate_config FETCH_INTERVAL_MINUTES LOOKBACK_PERIOD_DAYS
      SHORT_MA_WINDOW LONG_MA_WINDOW = true := by
  refine ⟨rfl, by norm_num, ?_⟩
  rfl

/-! ## backtest.py: trading loop and metrics -/

/-- One time step of the simulation loop of `backtest.py:69-126`: the
signal obtained at this step (the detector invocation itself is settled
separately, see C1), the row's closing price, and its date (a time-step
index). -/
structure StepInput : Type where
  signal : Option Signal
  price : ℚ
  date : ℕ
deriving DecidableEq, Repr

/-- The loop state of `backtest.py:63-67` together with the engine's
`trades` and `portfolio_value` lists (`backtest.py:31-32`):
`position` is `None` or `'LONG'`, `entry_price`/`entry_date` start at
`0`. -/
structure SimState : Type where
  position : Option String
  entry_price : ℚ
  entry_date : ℕ
  shares : ℚ
  cash : ℚ
  trades : List Trade
  portfolio_value : List ℚ
deriving DecidableEq, Repr

/-- The trade record appended on a SELL-signal exit
(`backtest.py:103-112`): profit `(exit - entry) * shares`, percentage
`(exit - entry) / entry * 100`, position field `'LONG'`. -/
def signal_exit_trade (entry_date exit_date : ℕ)
    (entry_price exit_price shares : ℚ) : Trade :=
  ⟨entry_date, exit_date, entry_price, exit_price, shares,
   (exit_price - entry_price) * shares,
   (exit_price - entry_price) / entry_price * 100, "LONG"⟩

/-- The trade record appended by the end-of-series liquidation
(`backtest.py:137-146`): the same fields and formulas as
`signal_exit_trade`; the record carries no liquidation marker (only the
console line printed at `backtest.py:149` shows `[CLOSE]`). -/
def force_close_trade (entry_date exit_date : ℕ)
    (entry_price exit_price shares : ℚ) : Trade :=
  ⟨entry_date, exit_date, entry_price, exit_price, shares,
   (exit_price - entry_price) * shares,
   (exit_price - entry_price) / entry_price * 100, "LONG"⟩

/-- `backtest.py:120-126`: after trade execution the current portfolio
valuation (shares times price when LONG, else cash) is appended. -/
def track_portfolio (st : SimState) (current_price : ℚ) : SimState :=
  { st with portfolio_value := st.portfolio_value ++
      [if st.position = some "LONG" then st.shares * current_price else st.cash] }

/-- The loop body of `backtest.py:69-126`: on BUY while flat, allocate
all cash into shares at the current price; on SELL while LONG, liquidate
and append a `signal_exit_trade`; otherwise leave the position unchanged;
in every case record the portfolio valuation. -/
def run_backtest_step (st : SimState) (inp : StepInput) : SimState :=
  if inp.signal = some Signal.BUY ∧ st.position = none then
    track_portfolio
      { st with
          shares := st.cash / inp.price, entry_price := inp.price,
          entry_date := inp.date, position := some "LONG", cash := 0 } inp.price
  else if inp.signal = some Signal.SELL ∧ st.position = some "LONG" then
    track_portfolio
      { st with
          cash := st.shares * inp.price,
          trades := st.trades ++
            [signal_exit_trade st.entry_date inp.date st.entry_price inp.price st.shares],
          position := none, shares := 0 } inp.price
  else track_portfolio st inp.price

/-- The initial simulation state of `backtest.py:63-67`. -/
def run_backtest_init (initial_capital : ℚ) : SimState :=
  ⟨none, 0, 0, 0, initial_capital, [], []⟩

/-- The full simulation loop (`for i in range(1, len(df))`,
`backtest.py:69-126`). -/
def run_backtest_loop (initial_capital : ℚ) (steps : List StepInput) : SimState :=
  steps.foldl run_backtest_step (run_backtest_init initial_capital)

/-- `backtest.py:129-152`: if still LONG after the loop, liquidate at the
final price, append a `force_close_trade`, and clear the position
(`shares` is not reset by this block). -/
def close_open_position (st : SimState) (final_price : ℚ) (final_date : ℕ) : SimState :=
  if st.position = some "LONG" then
    { st with
        cash := st.shares * final_price,
        trades := st.trades ++
          [force_close_trade st.entry_date final_date st.entry_price final_price st.shares],
        position := none }
  else st

/-- The simulation part of `run_backtest` after the data is loaded: the
loop followed by the end-of-series liquidation at the last row's price
and date (`df.iloc[-1]`, which is the last processed step when the loop
ran at all; with no steps the position is still `None` and no close-out
happens). -/
def run_backtest_sim (initial_capital : ℚ) (steps : List StepInput) : SimState :=
  match steps.getLast? with
  | some last =>
      close_open_position (run_backtest_loop initial_capital steps) last.price last.date
  | none => run_backtest_loop initial_capital steps

/-- `backtest.py:178`. -/
def total_trades (trades : List Trade) : ℕ := trades.length

/-- `backtest.py:179`: count of trades with `profit > 0`. -/
def winning_trades (trades : List Trade) : ℕ :=
  (trades.filter (fun t => decide (t.profit > 0))).length

/-- `backtest.py:180`: count of trades with `profit <= 0`. -/
def losing_trades (trades : List Trade) : ℕ :=
  (trades.filter (fun t => decide (t.profit ≤ 0))).length

/-- `backtest.py:182`. -/
def win_rate (trades : List Trade) : ℚ :=
  if 0 < total_trades trades then
    (winning_trades trades : ℚ) / (total_trades trades : ℚ) * 100
  else 0

/-- `backtest.py:184`. -/
def total_profit (trades : List Trade) : ℚ :=
  (trades.map (fun t => t.profit)).sum

/-- `backtest.py:185`. -/
def total_return_pct (final_cash initial_capital : ℚ) : ℚ :=
  (final_cash - initial_capital) / initial_capital * 100

/-- `backtest.py:187`. -/
def avg_profit_per_trade (trades : List Trade) : ℚ :=
  if 0 < total_trades trades then total_profit trades / (total_trades trades : ℚ)
  else 0

/-- Python's built-in `max` over a list; it raises on an empty list and
is only applied (at `backtest.py:189`) to a non-empty trade log, so the
empty case here is never exercised. -/
def py_list_max : List ℚ → ℚ
  | [] => 0
  | x :: xs => xs.foldl max x

/-- Python's built-in `min`, used at `backtest.py:190`; as with
`py_list_max` the empty case is never exercised. -/
def py_list_min : List ℚ → ℚ
  | [] => 0
  | x :: xs => xs.foldl min x

/-- `backtest.py:161-207`, `BacktestEngine._calculate_metrics`, modelled
as the association list the Python dict literally is: the no-trade branch
(`backtest.py:164-176`) carries ten keys and no `"max_drawdown"` entry;
the non-empty branch (`backtest.py:195-207`) carries eleven keys
including `"max_drawdown"`. Counts are stored as rationals. -/
def calculate_metrics (trades : List Trade) (final_cash initial_capital : ℚ)
    (portfolio_value : List ℚ) : List (String × ℚ) :=
  if trades.isEmpty then
    [("total_trades", 0), ("winning_trades", 0), ("losing_trades", 0),
     ("win_rate", 0), ("total_return", 0), ("total_return_pct", 0),
     ("avg_profit_per_trade", 0), ("max_profit", 0), ("max_loss", 0),
     ("final_capital", final_cash)]
  else
    [("total_trades", (total_trades trades : ℚ)),
     ("winning_trades", (winning_trades trades : ℚ)),
     ("losing_trades", (losing_trades trades : ℚ)),
     ("win_rate", win_rate trades),
     ("total_return", total_profit trades),
     ("total_return_pct", total_return_pct final_cash initial_capital),
     ("avg_profit_per_trade", avg_profit_per_trade trades),
     ("max_profit", py_list_max (trades.map (fun t => t.profit))),
     ("max_loss", py_list_min (trades.map (fun t => t.profit))),
     ("max_drawdown", calculate_max_drawdown portfolio_value),
     ("final_capital", final_cash)]

/-- `results = self._calculate_metrics(cash)` at `backtest.py:154`, on
the state after the loop and the end-of-series liquidation. -/
def run_backtest_results (initial_capital : ℚ) (steps : List StepInput) :
    List (String × ℚ) :=
  calculate_metrics (run_backtest_sim initial_capital steps).trades
    (run_backtest_sim initial_capital steps).cash initial_capital
    (run_backtest_sim initial_capital steps).portfolio_value

/-! ## Claim theorems: metrics and liquidation -/

theorem winning_plus_losing (trades : List Trade) :
    winning_trades trades + losing_trades trades = total_trades trades := by
  induction trades with
  | nil => rfl
  | cons t ts ih =>
    simp only [winning_trades, losing_trades, total_trades, List.filter_cons,
               List.length_cons, decide_eq_true_eq] at ih ⊢
    rcases le_or_lt t.profit 0 with h | h
    · rw [if_neg (not_lt.mpr h), if_pos h]
      simp only [List.length_cons]
      omega
    · rw [if_pos h, if_neg (not_le.mpr h)]
      simp only [List.length_cons]
      omega

theorem win_rate_mem_unit_interval (trades : List Trade) :
    0 ≤ win_rate trades ∧ win_rate trades ≤ 100 := by
  by_cases htot : 0 < total_trades trades
  · have hwl : winning_trades trades ≤ total_trades trades :=
      List.length_filter_le _ _
    have htotQ : (0 : ℚ) < (total_trades trades : ℚ) := by exact_mod_cast htot
    have hwQ : ((winning_trades trades : ℚ)) ≤ (total_trades trades : ℚ) := by
      exact_mod_cast hwl
    constructor
    · simp only [win_rate, if_pos htot]
      positivity
    · simp only [win_rate, if_pos htot]
      rw [div_mul_eq_mul_div, div_le_iff₀ htotQ]
      have h100 : (0 : ℚ) ≤ 100 := by norm_num
      nlinarith
  · simp [win_rate, htot]

/-- C8: for every trade log, winning and losing trades partition the log
(`winning` means `profit > 0`, `losing` means `profit <= 0`), the win
rate lies in `[0, 100]`, and the metrics record returned by
`calculate_metrics` reports exactly these values under the keys
`total_trades`, `winning_trades`, `losing_trades` and `win_rate`. -/
theorem metrics_partition_and_win_rate (trades : List Trade)
    (final_cash initial_capital : ℚ) (portfolio_value : List ℚ) :
    winning_trades trades + losing_trades trades = total_trades trades ∧
    0 ≤ win_rate trades ∧ win_rate trades ≤ 100 ∧
    (calculate_metrics trades final_cash initial_capital portfolio_value).lookup
        "total_trades" = some ((total_trades trades : ℚ)) ∧
    (calculate_metrics trades final_cash initial_capital portfolio_value).lookup
        "winning_trades" = some ((winning_trades trades : ℚ)) ∧
    (calculate_metrics trades final_cash initial_capital portfolio_value).lookup
        "losing_trades" = some ((losing_trades trades : ℚ)) ∧
    (calculate_metrics trades final_cash initial_capital portfolio_value).lookup
        "win_rate" = some (win_rate trades) := by
  refine ⟨winning_plus_losing trades, (win_rate_mem_unit_interval trades).1,
          (win_rate_mem_unit_interval trades).2, ?_, ?_, ?_, ?_⟩ <;>
    cases trades with
    | nil =>
        simp [calculate_metrics, List.lookup, total_trades, winning_trades,
              losing_trades, win_rate]
    | cons t ts =>
        simp [calculate_metrics, List.lookup]

/-- C5: on a backtest with no trades, the no-trade branch of
`_calculate_metrics` yields zero for every metric it contains and echoes
the final cash — but it contains no `"max_drawdown"` entry at all, so the
subsequent `results['max_drawdown']` access in `_display_results`
(`backtest.py:249`) raises `KeyError` and the claimed zero-valued
`max_drawdown_pct` is absent. -/
theorem metrics_no_trades_missing_max_drawdown
    (final_cash initial_capital : ℚ) (portfolio_value : List ℚ) :
    (calculate_metrics [] final_cash initial_capital portfolio_value).lookup
        "max_drawdown" = none ∧
    (calculate_metrics [] final_cash initial_capital portfolio_value).lookup
        "total_trades" = some 0 ∧
    (calculate_metrics [] final_cash initial_capital portfolio_value).lookup
        "winning_trades" = some 0 ∧
    (calculate_metrics [] final_cash initial_capital portfolio_value).lookup
        "losing_trades" = some 0 ∧
    (calculate_metrics [] final_cash initial_capital portfolio_value).lookup
        "win_rate" = some 0 ∧
    (calculate_metrics [] final_cash initial_capital portfolio_value).lookup
        "total_return" = some 0 ∧
    (calculate_metrics [] final_cash initial_capital portfolio_value).lookup
        "total_return_pct" = some 0 ∧
    (calculate_metrics [] final_cash initial_capital portfolio_value).lookup
        "avg_profit_per_trade" = some 0 ∧
    (calculate_metrics [] final_cash initial_capital portfolio_value).lookup
        "max_profit" = some 0 ∧
    (calculate_metrics [] final_cash initial_capital portfolio_value).lookup
        "max_loss" = some 0 ∧
    (calculate_metrics [] final_cash initial_capital portfolio_value).lookup
        "final_capital" = some final_cash := by
  simp [calculate_metrics, List.lookup]

/-- C4 counterexample: the trade record appended by the end-of-series
liquidation is field-for-field identical to the record a SELL-signal exit
appends at the same prices — the trade log carries no tag distinguishing
a closing liquidation from a signal-driven exit. -/
theorem force_close_trade_untagged :
    force_close_trade 0 9 100 120 100 = signal_exit_trade 0 9 100 120 100 := rfl

/-- C4 (amended): when the simulated series ends while a LONG position is
open, the engine appends exactly one additional trade, computed with the
same accounting as a SELL-triggered exit — the liquidation record equals
the corresponding `signal_exit_trade` record, so it is not separately
tagged — with `profit = (final_price - entry_price) * shares`, sets
`cash = shares * final_price`, and the reported `final_capital` equals
`shares * last_price`. -/
theorem force_close_spec (initial_capital : ℚ) (steps : List StepInput)
    (last : StepInput) (hlast : steps.getLast? = some last)
    (hpos : (run_backtest_loop initial_capital steps).position = some "LONG") :
    (run_backtest_sim initial_capital steps).trades
      = (run_backtest_loop initial_capital steps).trades ++
        [force_close_trade (run_backtest_loop initial_capital steps).entry_date
          last.date (run_backtest_loop initial_capital steps).entry_price
          last.price (run_backtest_loop initial_capital steps).shares] ∧
    (force_close_trade (run_backtest_loop initial_capital steps).entry_date
        last.date (run_backtest_loop initial_capital steps).entry_price
        last.price (run_backtest_loop initial_capital steps).shares).profit
      = (last.price - (run_backtest_loop initial_capital steps).entry_price) *
        (run_backtest_loop initial_capital steps).shares ∧
    force_close_trade (run_backtest_loop initial_capital steps).entry_date
        last.date (run_backtest_loop initial_capital steps).entry_price
        last.price (run_backtest_loop initial_capital steps).shares
      = signal_exit_trade (run_backtest_loop initial_capital steps).entry_date
          last.date (run_backtest_loop initial_capital steps).entry_price
          last.price (run_backtest_loop initial_capital steps).shares ∧
    (run_backtest_sim initial_capital steps).cash
      = (run_backtest_loop initial_capital steps).shares * last.price ∧
    (run_backtest_results initial_capital steps).lookup "final_capital"
      = some ((run_backtest_loop initial_capital steps).shares * last.price) := by
  have hsim : run_backtest_sim initial_capital steps
      = close_open_position (run_backtest_loop initial_capital steps)
          last.price last.date := by
    unfold run_backtest_sim
    rw [hlast]
  have hclose : close_open_position (run_backtest_loop initial_capital steps)
        last.price last.date
      = { run_backtest_loop initial_capital steps with
            cash := (run_backtest_loop initial_capital steps).shares * last.price,
            trades := (run_backtest_loop initial_capital steps).trades ++
              [force_close_trade
                (run_backtest_loop initial_capital steps).entry_date last.date
                (run_backtest_loop initial_capital steps).entry_price last.price
                (run_backtest_loop initial_capital steps).shares],
            position := none } := by
    unfold close_open_position
    rw [if_pos hpos]
  refine ⟨?_, rfl, rfl, ?_, ?_⟩
  · rw [hsim, hclose]
  · rw [hsim, hclose]
  · unfold run_backtest_results
    rw [hsim, hclose]
    simp [calculate_metrics, List.lookup]

/-- A concrete two-step series for C4's witness: a BUY at price 100,
then a step with no signal at price 110, leaving the position LONG at the
end of the series. -/
def demo_steps : List StepInput :=
  [⟨some Signal.BUY, 100, 0⟩, ⟨none, 110, 1⟩]

/-- C4 witness: on `demo_steps` with capital 1000, the end-of-series
liquidation sets cash to `shares * 110` and reports that value as
`final_capital`. -/
theorem force_close_spec_witness :
    (run_backtest_sim 1000 demo_steps).cash
      = (run_backtest_loop 1000 demo_steps).shares * 110 ∧
    (run_backtest_results 1000 demo_steps).lookup "final_capital"
      = some ((run_backtest_loop 1000 demo_steps).shares * 110) :=
  ⟨(force_close_spec 1000 demo_steps ⟨none, 110, 1⟩ rfl rfl).2.2.2.1,
   (force_close_spec 1000 demo_steps ⟨none, 110, 1⟩ rfl rfl).2.2.2.2⟩

/-! ## Claim theorem: the backtest loop's detector invocation (C1) -/

/-- The parameter list of `detect_ma_crossover` as defined at
`indicators.py:53`: `(price_data, short_window, long_window)`. -/
def detect_ma_crossover_params : List String :=
  ["price_data", "short_window", "long_window"]

/-- The positional argument list of the call
`detect_ma_crossover(previous_row['Short_MA'], previous_row['Long_MA'],
current_row['Short_MA'], current_row['Long_MA'])` at
`backtest.py:74-79`: four scalar moving-average values. -/
def run_backtest_crossover_call_args : List String :=
  ["previous_row Short_MA", "previous_row Long_MA",
   "current_row Short_MA", "current_row Long_MA"]

/-- C1: the backtest loop invokes the crossover detector with four
positional scalar arguments, but the detector's definition takes three
parameters (a price series and two window lengths), so the invocation is
not well-defined: Python raises `TypeError` at the first simulated step
and `run_backtest` cannot return a result. -/
theorem run_backtest_crossover_call_arity_mismatch :
    run_backtest_crossover_call_args.length ≠ detect_ma_crossover_params.length := by
  decide

end Trading
